import Mathlib

/-!
Verification of the `apkox` package of the `daggerx` repository
(`pkg/apkox/apko.go`): a fluent builder that renders `apko build`
command lines, plus its preset registry and path/config resolvers.

The Go code is embedded shallowly: the mutable builder struct becomes a
Lean structure, each setter becomes a pure function returning the updated
structure, and `BuildCommand` (which mutates the builder's `tag` field)
is embedded in state-passing style, returning both the Go result
(`([]string, error)` modelled as `Except String (List String)`) and the
builder as it stands after the call.
-/

namespace Apkox

/-- `KeyringInfo` holds information about a keyring (URL and path). -/
structure KeyringInfo where
  KeyURL : String
  KeyPath : String
deriving Repr, DecidableEq

/-- `ApkoBuilder` embeds the Go struct of the same name, field for field,
in declaration order.  Go zero values become the Lean defaults
(`""`, `[]`, `false`).  The Go field `annotations` (a
`map[string]string`) is embedded as `annots`, an association list. -/
structure ApkoBuilder where
  configFile : String := ""
  outputImage : String := ""
  tag : String := ""
  outputTarball : String := ""
  keyringPaths : List String := []
  cacheDir : String := ""
  extraArgs : List String := []
  wolfiKeyring : Bool := false
  alpineKeyring : Bool := false
  buildArch : String := ""
  buildContext : String := ""
  debug : Bool := false
  keyringAppendPlaintext : List String := []
  noNetwork : Bool := false
  repositoryAppend : List String := []
  timestamp : String := ""
  annots : List (String × String) := []
  buildDate : String := ""
  lockfile : String := ""
  offline : Bool := false
  packageAppend : List String := []
  sbom : Bool := false
  sbomFormats : List String := []
  sbomPath : String := ""
  vcs : Bool := false
  logLevel : String := ""
  logPolicy : List String := []
  workdir : String := ""
deriving Repr, DecidableEq

/-- `NewApkoBuilder` creates a new `ApkoBuilder` with default settings. -/
def NewApkoBuilder : ApkoBuilder := {}

namespace ApkoBuilder

/-- `WithBuildArch` sets the build architecture (`b.buildArch = string(arch)`). -/
def WithBuildArch (b : ApkoBuilder) (arch : String) : ApkoBuilder :=
  { b with buildArch := arch }

/-- `WithConfigFile` sets the configuration file. -/
def WithConfigFile (b : ApkoBuilder) (configFile : String) : ApkoBuilder :=
  { b with configFile := configFile }

/-- `WithOutputImage` sets the output image name. -/
def WithOutputImage (b : ApkoBuilder) (outputImage : String) : ApkoBuilder :=
  { b with outputImage := outputImage }

/-- `WithOutputTarball` sets the output tarball path. -/
def WithOutputTarball (b : ApkoBuilder) (outputTarball : String) : ApkoBuilder :=
  { b with outputTarball := outputTarball }

/-- `WithKeyring` appends a keyring path
(`b.keyringPaths = append(b.keyringPaths, keyringPath)`). -/
def WithKeyring (b : ApkoBuilder) (keyringPath : String) : ApkoBuilder :=
  { b with keyringPaths := b.keyringPaths ++ [keyringPath] }

/-- `WithWolfiKeyring` sets the `wolfiKeyring` field to `true`. -/
def WithWolfiKeyring (b : ApkoBuilder) : ApkoBuilder :=
  { b with wolfiKeyring := true }

/-- `WithAlpineKeyring` sets the `alpineKeyring` field to `true`. -/
def WithAlpineKeyring (b : ApkoBuilder) : ApkoBuilder :=
  { b with alpineKeyring := true }

/-- `WithArchitecture` sets the build architecture from a plain string. -/
def WithArchitecture (b : ApkoBuilder) (arch : String) : ApkoBuilder :=
  { b with buildArch := arch }

/-- `WithCacheDir` sets the cache directory. -/
def WithCacheDir (b : ApkoBuilder) (cacheDir : String) : ApkoBuilder :=
  { b with cacheDir := cacheDir }

/-- `WithExtraArg` appends an extra argument
(`b.extraArgs = append(b.extraArgs, arg)`). -/
def WithExtraArg (b : ApkoBuilder) (arg : String) : ApkoBuilder :=
  { b with extraArgs := b.extraArgs ++ [arg] }

/-- `WithBuildContext` sets the build context directory. -/
def WithBuildContext (b : ApkoBuilder) (dir : String) : ApkoBuilder :=
  { b with buildContext := dir }

/-- `WithDebug` enables debug output. -/
def WithDebug (b : ApkoBuilder) : ApkoBuilder :=
  { b with debug := true }

/-- `WithKeyringAppendPlaintext` appends a plaintext keyring
(`append(b.keyringAppendPlaintext, keyring)`). -/
def WithKeyringAppendPlaintext (b : ApkoBuilder) (keyring : String) : ApkoBuilder :=
  { b with keyringAppendPlaintext := b.keyringAppendPlaintext ++ [keyring] }

/-- `WithNoNetwork` disables network access during the build. -/
def WithNoNetwork (b : ApkoBuilder) : ApkoBuilder :=
  { b with noNetwork := true }

/-- `WithRepositoryAppend` appends a repository
(`append(b.repositoryAppend, repo)`). -/
def WithRepositoryAppend (b : ApkoBuilder) (repo : String) : ApkoBuilder :=
  { b with repositoryAppend := b.repositoryAppend ++ [repo] }

/-- `WithTimestamp` sets the timestamp for the build. -/
def WithTimestamp (b : ApkoBuilder) (timestamp : String) : ApkoBuilder :=
  { b with timestamp := timestamp }

/-- `WithTag` sets the tag for the build. -/
def WithTag (b : ApkoBuilder) (tag : String) : ApkoBuilder :=
  { b with tag := tag }

/-- `WithAnnots` embeds Go's `WithAnnotations`: it replaces the
annotation map (`b.annotations = annotations`). -/
def WithAnnots (b : ApkoBuilder) (annots : List (String × String)) : ApkoBuilder :=
  { b with annots := annots }

/-- `WithBuildDate` sets the build date. -/
def WithBuildDate (b : ApkoBuilder) (date : String) : ApkoBuilder :=
  { b with buildDate := date }

/-- `WithLockfile` sets the lockfile path. -/
def WithLockfile (b : ApkoBuilder) (path : String) : ApkoBuilder :=
  { b with lockfile := path }

/-- `WithOffline` enables offline mode. -/
def WithOffline (b : ApkoBuilder) : ApkoBuilder :=
  { b with offline := true }

/-- `WithPackageAppend` appends extra packages (variadic in Go:
`b.packageAppend = append(b.packageAppend, packages...)`). -/
def WithPackageAppend (b : ApkoBuilder) (packages : List String) : ApkoBuilder :=
  { b with packageAppend := b.packageAppend ++ packages }

/-- `WithSBOM` enables or disables SBOM generation (`b.sbom = enable`). -/
def WithSBOM (b : ApkoBuilder) (enable : Bool) : ApkoBuilder :=
  { b with sbom := enable }

/-- `WithSBOMFormats` sets the SBOM formats; the Go body is
`b.sbomFormats = formats`, a replacement, not an append. -/
def WithSBOMFormats (b : ApkoBuilder) (formats : List String) : ApkoBuilder :=
  { b with sbomFormats := formats }

/-- `WithSBOMPath` sets the SBOM output path. -/
def WithSBOMPath (b : ApkoBuilder) (path : String) : ApkoBuilder :=
  { b with sbomPath := path }

/-- `WithVCS` enables or disables VCS detection (`b.vcs = enable`). -/
def WithVCS (b : ApkoBuilder) (enable : Bool) : ApkoBuilder :=
  { b with vcs := enable }

/-- `WithLogLevel` sets the log level. -/
def WithLogLevel (b : ApkoBuilder) (level : String) : ApkoBuilder :=
  { b with logLevel := level }

/-- `WithLogPolicy` sets the log policy; the Go body is
`b.logPolicy = policies`, a replacement, not an append. -/
def WithLogPolicy (b : ApkoBuilder) (policies : List String) : ApkoBuilder :=
  { b with logPolicy := policies }

/-- `WithWorkdir` sets the working directory. -/
def WithWorkdir (b : ApkoBuilder) (dir : String) : ApkoBuilder :=
  { b with workdir := dir }

/-- `BuildCommand` embeds the Go method of the same name in
state-passing style.  The first component is Go's `([]string, error)`
pair (`Except.error msg` for a non-nil error with message `msg`,
`Except.ok cmd` for a nil error with command slice `cmd`); the second
component is the builder as the method leaves it (the method mutates
`b.tag` when defaulting it to `"latest"`). -/
def BuildCommand (b : ApkoBuilder) : Except String (List String) × ApkoBuilder :=
  if b.configFile = "" then
    (Except.error "config file is required", b)
  else if b.outputImage = "" then
    (Except.error "output image name is required", b)
  else if b.outputTarball = "" then
    (Except.error "output tarball path is required", b)
  else
    -- Default tag if not set
    let b := if b.tag = "" then { b with tag := "latest" } else b
    -- Start with base command
    let cmd := ["apko", "build"]
    -- Add all flags before positional arguments
    let cmd := if b.cacheDir ≠ "" then cmd ++ ["--cache-dir", b.cacheDir] else cmd
    let cmd := b.keyringPaths.foldl (fun c k => c ++ ["--keyring-append", k]) cmd
    let cmd := if b.buildArch ≠ "" then cmd ++ ["--arch", b.buildArch] else cmd
    let cmd := if b.buildContext ≠ "" then
      cmd ++ ["--build-repository-append", b.buildContext] else cmd
    -- Add other flags
    let cmd := if !b.sbom then cmd ++ ["--sbom=false"] else cmd
    let cmd := if !b.vcs then cmd ++ ["--vcs=false"] else cmd
    -- Add the three required positional arguments last
    let imageRef := b.outputImage ++ ":" ++ b.tag
    let cmd := cmd ++ [b.configFile, imageRef, b.outputTarball]
    -- Add any extra arguments at the very end
    let cmd := cmd ++ b.extraArgs
    (Except.ok cmd, b)

end ApkoBuilder

/-- `GetKeyringInfoForPreset` returns the keyring information for a
preset, or an `unsupported preset` error (the Go `switch` on the
preset string). -/
def GetKeyringInfoForPreset (preset : String) : Except String KeyringInfo :=
  if preset = "alpine" then
    Except.ok
      { KeyURL := "https://alpinelinux.org/keys/alpine-devel@lists.alpinelinux.org-4a6a0840.rsa.pub"
        KeyPath := "/etc/apk/keys/alpine-devel@lists.alpinelinux.org-4a6a0840.rsa.pub" }
  else if preset = "wolfi" then
    Except.ok
      { KeyURL := "https://packages.wolfi.dev/os/wolfi-signing.rsa.pub"
        KeyPath := "/etc/apk/keys/wolfi-signing.rsa.pub" }
  else
    Except.error ("unsupported preset: " ++ preset)

/-- Modelled from the spec: `fixtures.MntPrefix`, the process-wide
default mount prefix, lives in a package of this repository that is not
under `src/`.  Its concrete value never reaches the result of
`GetApkoConfigOrPreset` (the prefix is only defaulted, never joined),
so the claims below are insensitive to it. -/
def MntPrefix : String := "/mnt"

/-- Scan a path's characters in reverse: return the extension (the
suffix from the final dot of the final path element) as soon as a dot
is met, give up on a path separator.  `acc` holds the characters
already passed, in forward order. -/
def extRev : List Char → List Char → Option (List Char)
  | [], _ => none
  | c :: rest, acc =>
    if c = '/' then none
    else if c = '.' then some (c :: acc)
    else extRev rest (c :: acc)

/-- `filepathExt` embeds Go's `filepath.Ext` on Unix: the suffix of
`path` beginning at the final dot in the final slash-separated element,
or `""` if there is no dot. -/
def filepathExt (path : String) : String :=
  match extRev path.data.reverse [] with
  | some l => ⟨l⟩
  | none => ""

/-- `GetApkoConfigOrPreset` validates a config file path: the file must
be non-empty, have an extension, and the extension must be `.yaml` or
`.yml`; on success the file path is returned unchanged.  The mount
prefix is defaulted when empty but never used afterwards, exactly as in
the Go source. -/
def GetApkoConfigOrPreset (mntPrefix cfgFile : String) : Except String String :=
  let _mntPrefix := if mntPrefix = "" then MntPrefix else mntPrefix
  if cfgFile = "" then
    Except.error "config file is required"
  else
    let ext := filepathExt cfgFile
    if ext = "" then
      Except.error "config file must have an extension"
    else if ext ≠ ".yaml" ∧ ext ≠ ".yml" then
      Except.error "config file must have a .yaml or .yml extension"
    else
      Except.ok cfgFile

/-- `WithKeyRingWolfi` appends the Wolfi signing key path when the
preset lookup succeeds (it always does), silently no-opping otherwise. -/
def ApkoBuilder.WithKeyRingWolfi (b : ApkoBuilder) : ApkoBuilder :=
  match GetKeyringInfoForPreset "wolfi" with
  | Except.ok info => { b with keyringPaths := b.keyringPaths ++ [info.KeyPath] }
  | Except.error _ => b

/-- `WithKeyRingAlpine` appends the Alpine signing key path when the
preset lookup succeeds (it always does), silently no-opping otherwise. -/
def ApkoBuilder.WithKeyRingAlpine (b : ApkoBuilder) : ApkoBuilder :=
  match GetKeyringInfoForPreset "alpine" with
  | Except.ok info => { b with keyringPaths := b.keyringPaths ++ [info.KeyPath] }
  | Except.error _ => b

/-! ### Derived views of `BuildCommand`

The following definitions name the three regions of a successful
`BuildCommand` output — the flag region, the positional region and the
extra-argument region — and `buildCommand_eq` proves that the embedded
`BuildCommand` renders exactly their concatenation after the base
tokens.  They exist so that ordering and flag-emission properties can
be stated structurally; `BuildCommand` itself stays the authoritative
embedding. -/

/-- The tag-defaulting step of `BuildCommand`: replace an empty tag by
`"latest"`, leave everything else alone. -/
def defaultTag (b : ApkoBuilder) : ApkoBuilder :=
  if b.tag = "" then { b with tag := "latest" } else b

/-- The keyring flag region: `--keyring-append k` for each keyring path
`k`, in list (= insertion) order. -/
def keyringFlags : List String → List String
  | [] => []
  | k :: rest => "--keyring-append" :: k :: keyringFlags rest

/-- The flag region of a `BuildCommand` output, in the fixed declared
order of the source: cache dir, keyring paths, architecture,
build context, SBOM toggle, VCS toggle. -/
def flagTokens (b : ApkoBuilder) : List String :=
  (if b.cacheDir ≠ "" then ["--cache-dir", b.cacheDir] else []) ++
  keyringFlags b.keyringPaths ++
  (if b.buildArch ≠ "" then ["--arch", b.buildArch] else []) ++
  (if b.buildContext ≠ "" then ["--build-repository-append", b.buildContext] else []) ++
  (if !b.sbom then ["--sbom=false"] else []) ++
  (if !b.vcs then ["--vcs=false"] else [])

/-- The positional region of a `BuildCommand` output, in the fixed
declared order of the source: config file, `image:tag` reference,
output tarball. -/
def positionalArgs (b : ApkoBuilder) : List String :=
  [b.configFile, b.outputImage ++ ":" ++ b.tag, b.outputTarball]

/-- All caller-supplied strings that can appear as tokens of a
successful `BuildCommand` output besides the fixed flag and base
tokens: the flag values, the three positionals (with the tag already
defaulted) and the extra arguments.  Used to state flag-counting
properties without interference from caller-planted copies of a flag
token. -/
def payloadTokens (b : ApkoBuilder) : List String :=
  [b.cacheDir, b.buildArch, b.buildContext, b.configFile,
    b.outputImage ++ ":" ++ (defaultTag b).tag, b.outputTarball] ++
  b.keyringPaths ++ b.extraArgs

lemma foldl_keyring (l : List String) (cmd : List String) :
    l.foldl (fun c k => c ++ ["--keyring-append", k]) cmd = cmd ++ keyringFlags l := by
  induction l generalizing cmd with
  | nil => simp [keyringFlags]
  | cons k rest ih => simp [keyringFlags, ih, List.append_assoc]

lemma keyringFlags_count (t : String) (l : List String)
    (ht : t ≠ "--keyring-append") (hl : t ∉ l) :
    (keyringFlags l).count t = 0 := by
  induction l with
  | nil => rfl
  | cons k rest ih =>
    have hk : t ≠ k := fun h => hl (h ▸ List.mem_cons_self k rest)
    have hr : t ∉ rest := fun h => hl (List.mem_cons_of_mem k h)
    simp [keyringFlags, List.count_cons, ht, hk, ih hr]

lemma flagTokens_defaultTag (b : ApkoBuilder) :
    flagTokens (defaultTag b) = flagTokens b := by
  unfold defaultTag; split <;> rfl

lemma defaultTag_configFile (b : ApkoBuilder) : (defaultTag b).configFile = b.configFile := by
  unfold defaultTag; split <;> rfl

lemma defaultTag_outputImage (b : ApkoBuilder) : (defaultTag b).outputImage = b.outputImage := by
  unfold defaultTag; split <;> rfl

lemma defaultTag_outputTarball (b : ApkoBuilder) :
    (defaultTag b).outputTarball = b.outputTarball := by
  unfold defaultTag; split <;> rfl

lemma defaultTag_extraArgs (b : ApkoBuilder) : (defaultTag b).extraArgs = b.extraArgs := by
  unfold defaultTag; split <;> rfl

lemma defaultTag_tag_ne (b : ApkoBuilder) : (defaultTag b).tag ≠ "" := by
  unfold defaultTag; split <;> simp_all

lemma defaultTag_idem (b : ApkoBuilder) : defaultTag (defaultTag b) = defaultTag b := by
  unfold defaultTag; split <;> simp_all

set_option maxHeartbeats 1000000 in
/-- Structural characterisation of a successful `BuildCommand` call:
base tokens, then the flag region, then the positional region, then the
extra arguments verbatim, with the builder left tag-defaulted. -/
lemma buildCommand_eq (b : ApkoBuilder) (h1 : b.configFile ≠ "")
    (h2 : b.outputImage ≠ "") (h3 : b.outputTarball ≠ "") :
    b.BuildCommand =
      (Except.ok (["apko", "build"] ++ flagTokens (defaultTag b) ++
        positionalArgs (defaultTag b) ++ b.extraArgs), defaultTag b) := by
  unfold ApkoBuilder.BuildCommand
  rw [if_neg h1, if_neg h2, if_neg h3]
  by_cases ht : b.tag = "" <;>
    simp only [defaultTag, flagTokens, positionalArgs, foldl_keyring, ht,
      if_true, if_false, ite_true, ite_false, reduceIte] <;>
    split_ifs <;>
    simp [List.append_assoc]

lemma defaultTag_sbom (b : ApkoBuilder) : (defaultTag b).sbom = b.sbom := by
  unfold defaultTag; split <;> rfl

lemma defaultTag_vcs (b : ApkoBuilder) : (defaultTag b).vcs = b.vcs := by
  unfold defaultTag; split <;> rfl

/-! ### Claims -/

/-- C1: for a builder with configFile `"app.yaml"`, outputImage
`"myimage"`, outputTarball `"out.tar"`, cacheDir `"/cache"`, tag unset
and no other options set, `BuildCommand` returns exactly
`["apko", "build", "--cache-dir", "/cache", "--sbom=false",
"--vcs=false", "app.yaml", "myimage:latest", "out.tar"]` and a nil
error. -/
theorem buildCommand_concrete_scenario :
    ((((NewApkoBuilder.WithConfigFile "app.yaml").WithOutputImage
      "myimage").WithOutputTarball "out.tar").WithCacheDir "/cache").BuildCommand.1 =
      Except.ok ["apko", "build", "--cache-dir", "/cache", "--sbom=false", "--vcs=false",
        "app.yaml", "myimage:latest", "out.tar"] := rfl

/-- C2: whenever at least one of the three required fields is missing,
`BuildCommand` returns a non-nil error naming the first missing field
in the priority order configFile, outputImage, outputTarball, together
with a nil (absent) argument sequence, and leaves the builder
untouched. -/
theorem buildCommand_missing_required_field (b : ApkoBuilder)
    (h : b.configFile = "" ∨ b.outputImage = "" ∨ b.outputTarball = "") :
    b.BuildCommand =
      (Except.error
        (if b.configFile = "" then "config file is required"
         else if b.outputImage = "" then "output image name is required"
         else "output tarball path is required"), b) := by
  unfold ApkoBuilder.BuildCommand
  split_ifs <;> simp_all

/-- Witness for C2 at the empty builder: the config-file check fires
first. -/
theorem buildCommand_missing_required_field_witness :
    (NewApkoBuilder.configFile = "" ∨ NewApkoBuilder.outputImage = "" ∨
      NewApkoBuilder.outputTarball = "") ∧
    NewApkoBuilder.BuildCommand =
      (Except.error
        (if NewApkoBuilder.configFile = "" then "config file is required"
         else if NewApkoBuilder.outputImage = "" then "output image name is required"
         else "output tarball path is required"), NewApkoBuilder) :=
  ⟨Or.inl rfl, buildCommand_missing_required_field NewApkoBuilder (Or.inl rfl)⟩

/-- C3 counterexample: `WithSBOMFormats` replaces the stored list
(`b.sbomFormats = formats`) instead of appending, so calling it with
`["a"]` and then `["b"]` leaves `["b"]`, not `["a", "b"]`. -/
theorem withSBOMFormats_replaces :
    ((NewApkoBuilder.WithSBOMFormats ["a"]).WithSBOMFormats ["b"]).sbomFormats = ["b"] ∧
    ((NewApkoBuilder.WithSBOMFormats ["a"]).WithSBOMFormats ["b"]).sbomFormats ≠ ["a", "b"] := by
  refine ⟨rfl, ?_⟩
  intro h
  simp [ApkoBuilder.WithSBOMFormats, NewApkoBuilder] at h

/-- C3 (amended): the setters for keyring paths, extra arguments,
plaintext keyrings, appended repositories and appended packages append
to the existing list in call order; the setters for SBOM formats and
log policies replace the stored list with the latest call's
arguments. -/
theorem listSetters_accumulation (b : ApkoBuilder) (a c : String) :
    ((b.WithKeyring a).WithKeyring c).keyringPaths = b.keyringPaths ++ [a, c] ∧
    ((b.WithExtraArg a).WithExtraArg c).extraArgs = b.extraArgs ++ [a, c] ∧
    ((b.WithKeyringAppendPlaintext a).WithKeyringAppendPlaintext c).keyringAppendPlaintext
      = b.keyringAppendPlaintext ++ [a, c] ∧
    ((b.WithRepositoryAppend a).WithRepositoryAppend c).repositoryAppend
      = b.repositoryAppend ++ [a, c] ∧
    ((b.WithPackageAppend [a]).WithPackageAppend [c]).packageAppend
      = b.packageAppend ++ [a, c] ∧
    ((b.WithSBOMFormats [a]).WithSBOMFormats [c]).sbomFormats = [c] ∧
    ((b.WithLogPolicy [a]).WithLogPolicy [c]).logPolicy = [c] := by
  refine ⟨?_, ?_, ?_, ?_, ?_, rfl, rfl⟩ <;>
    simp [ApkoBuilder.WithKeyring, ApkoBuilder.WithExtraArg,
      ApkoBuilder.WithKeyringAppendPlaintext, ApkoBuilder.WithRepositoryAppend,
      ApkoBuilder.WithPackageAppend]

/-- C4 counterexample: on a valid builder with both toggles left
unconfigured, `BuildCommand` emits `--sbom=false` and `--vcs=false`
(the Go zero value of the booleans is `false`, not `true`), refuting
the claim that an unconfigured toggle emits no flag. -/
theorem sbomVcs_unconfigured_emits_flags :
    (((NewApkoBuilder.WithConfigFile "app.yaml").WithOutputImage
      "myimage").WithOutputTarball "out.tar").BuildCommand.1 =
      Except.ok ["apko", "build", "--sbom=false", "--vcs=false",
        "app.yaml", "myimage:latest", "out.tar"] := rfl

/-- C4 (amended): the SBOM/VCS booleans default to `false`, so an
unconfigured toggle emits the `=false` flag; provided no
caller-supplied value itself equals the flag token, every successful
output contains `--sbom=false` exactly once when the SBOM boolean is
`false` and not at all when it is `true` (set via `WithSBOM true`),
and likewise for `--vcs=false` and the VCS boolean. -/
theorem sbomVcs_flag_emission (b : ApkoBuilder) (cmd : List String)
    (h : b.BuildCommand.1 = Except.ok cmd)
    (hs : "--sbom=false" ∉ payloadTokens b)
    (hv : "--vcs=false" ∉ payloadTokens b) :
    cmd.count "--sbom=false" = (if b.sbom then 0 else 1) ∧
    cmd.count "--vcs=false" = (if b.vcs then 0 else 1) := by
  by_cases h1 : b.configFile = ""
  · unfold ApkoBuilder.BuildCommand at h
    rw [if_pos h1] at h
    cases h
  by_cases h2 : b.outputImage = ""
  · unfold ApkoBuilder.BuildCommand at h
    rw [if_neg h1, if_pos h2] at h
    cases h
  by_cases h3 : b.outputTarball = ""
  · unfold ApkoBuilder.BuildCommand at h
    rw [if_neg h1, if_neg h2, if_pos h3] at h
    cases h
  rw [buildCommand_eq b h1 h2 h3] at h
  have hcmd : ["apko", "build"] ++ flagTokens (defaultTag b) ++
      positionalArgs (defaultTag b) ++ b.extraArgs = cmd := Except.ok.inj h
  subst hcmd
  simp only [payloadTokens, List.mem_append, List.mem_cons, List.not_mem_nil,
    or_false, not_or] at hs hv
  obtain ⟨⟨⟨hs1, hs2, hs3, hs4, hs5, hs6⟩, hs7⟩, hs8⟩ := hs
  obtain ⟨⟨⟨hv1, hv2, hv3, hv4, hv5, hv6⟩, hv7⟩, hv8⟩ := hv
  have hks : (keyringFlags b.keyringPaths).count "--sbom=false" = 0 :=
    keyringFlags_count _ _ (by decide) hs7
  have hkv : (keyringFlags b.keyringPaths).count "--vcs=false" = 0 :=
    keyringFlags_count _ _ (by decide) hv7
  have hes : b.extraArgs.count "--sbom=false" = 0 := List.count_eq_zero.mpr hs8
  have hev : b.extraArgs.count "--vcs=false" = 0 := List.count_eq_zero.mpr hv8
  rw [flagTokens_defaultTag]
  unfold flagTokens positionalArgs
  rw [defaultTag_configFile, defaultTag_outputImage, defaultTag_outputTarball]
  have hpos_s : ([b.configFile, b.outputImage ++ ":" ++ (defaultTag b).tag,
      b.outputTarball].count "--sbom=false") = 0 := by
    simp [List.count_cons, hs4, hs5, hs6]
  have hpos_v : ([b.configFile, b.outputImage ++ ":" ++ (defaultTag b).tag,
      b.outputTarball].count "--vcs=false") = 0 := by
    simp [List.count_cons, hv4, hv5, hv6]
  have hc_s : (if b.cacheDir ≠ "" then ["--cache-dir", b.cacheDir] else []).count
      "--sbom=false" = 0 := by
    split_ifs <;> simp [List.count_cons, hs1]
  have hc_v : (if b.cacheDir ≠ "" then ["--cache-dir", b.cacheDir] else []).count
      "--vcs=false" = 0 := by
    split_ifs <;> simp [List.count_cons, hv1]
  have ha_s : (if b.buildArch ≠ "" then ["--arch", b.buildArch] else []).count
      "--sbom=false" = 0 := by
    split_ifs <;> simp [List.count_cons, hs2]
  have ha_v : (if b.buildArch ≠ "" then ["--arch", b.buildArch] else []).count
      "--vcs=false" = 0 := by
    split_ifs <;> simp [List.count_cons, hv2]
  have hx_s : (if b.buildContext ≠ "" then
      ["--build-repository-append", b.buildContext] else []).count "--sbom=false" = 0 := by
    split_ifs <;> simp [List.count_cons, hs3]
  have hx_v : (if b.buildContext ≠ "" then
      ["--build-repository-append", b.buildContext] else []).count "--vcs=false" = 0 := by
    split_ifs <;> simp [List.count_cons, hv3]
  have hsb_s : (if !b.sbom then ["--sbom=false"] else []).count "--sbom=false" =
      (if b.sbom then 0 else 1) := by cases hb : b.sbom <;> rfl
  have hsb_v : (if !b.sbom then ["--sbom=false"] else []).count "--vcs=false" = 0 := by
    cases hb : b.sbom <;> rfl
  have hvc_s : (if !b.vcs then ["--vcs=false"] else []).count "--sbom=false" = 0 := by
    cases hb : b.vcs <;> rfl
  have hvc_v : (if !b.vcs then ["--vcs=false"] else []).count "--vcs=false" =
      (if b.vcs then 0 else 1) := by cases hb : b.vcs <;> rfl
  have hbase_s : (["apko", "build"] : List String).count "--sbom=false" = 0 := rfl
  have hbase_v : (["apko", "build"] : List String).count "--vcs=false" = 0 := rfl
  constructor
  · simp only [List.count_append]
    rw [hbase_s, hc_s, hks, ha_s, hx_s, hsb_s, hvc_s, hpos_s, hes]
    cases hb : b.sbom <;> simp
  · simp only [List.count_append]
    rw [hbase_v, hc_v, hkv, ha_v, hx_v, hsb_v, hvc_v, hpos_v, hev]
    cases hb : b.vcs <;> simp

/-- Witness for C4 (amended): on a concrete fully-configured builder
the default (`false`/`false`) toggles yield one occurrence of each
flag, and explicitly enabling both via `WithSBOM true` / `WithVCS
true` yields zero occurrences of each. -/
theorem sbomVcs_flag_emission_witness :
    (("--sbom=false" ∉ payloadTokens (((NewApkoBuilder.WithConfigFile
        "app.yaml").WithOutputImage "myimage").WithOutputTarball "out.tar") ∧
      "--vcs=false" ∉ payloadTokens (((NewApkoBuilder.WithConfigFile
        "app.yaml").WithOutputImage "myimage").WithOutputTarball "out.tar") ∧
      (((NewApkoBuilder.WithConfigFile "app.yaml").WithOutputImage
        "myimage").WithOutputTarball "out.tar").BuildCommand.1 =
        Except.ok ["apko", "build", "--sbom=false", "--vcs=false",
          "app.yaml", "myimage:latest", "out.tar"]) ∧
     ["apko", "build", "--sbom=false", "--vcs=false",
        "app.yaml", "myimage:latest", "out.tar"].count "--sbom=false" = 1 ∧
     ["apko", "build", "--sbom=false", "--vcs=false",
        "app.yaml", "myimage:latest", "out.tar"].count "--vcs=false" = 1) ∧
    ((((((NewApkoBuilder.WithConfigFile "app.yaml").WithOutputImage
        "myimage").WithOutputTarball "out.tar").WithSBOM true).WithVCS
        true).BuildCommand.1 =
        Except.ok ["apko", "build", "app.yaml", "myimage:latest", "out.tar"] ∧
     ["apko", "build", "app.yaml", "myimage:latest", "out.tar"].count
        "--sbom=false" = 0 ∧
     ["apko", "build", "app.yaml", "myimage:latest", "out.tar"].count
        "--vcs=false" = 0) :=
  ⟨⟨⟨by decide, by decide, rfl⟩,
    (sbomVcs_flag_emission
      (((NewApkoBuilder.WithConfigFile "app.yaml").WithOutputImage
        "myimage").WithOutputTarball "out.tar")
      ["apko", "build", "--sbom=false", "--vcs=false",
        "app.yaml", "myimage:latest", "out.tar"]
      rfl (by decide) (by decide)).1,
    (sbomVcs_flag_emission
      (((NewApkoBuilder.WithConfigFile "app.yaml").WithOutputImage
        "myimage").WithOutputTarball "out.tar")
      ["apko", "build", "--sbom=false", "--vcs=false",
        "app.yaml", "myimage:latest", "out.tar"]
      rfl (by decide) (by decide)).2⟩,
   ⟨rfl,
    (sbomVcs_flag_emission
      (((((NewApkoBuilder.WithConfigFile "app.yaml").WithOutputImage
        "myimage").WithOutputTarball "out.tar").WithSBOM true).WithVCS true)
      ["apko", "build", "app.yaml", "myimage:latest", "out.tar"]
      rfl (by decide) (by decide)).1,
    (sbomVcs_flag_emission
      (((((NewApkoBuilder.WithConfigFile "app.yaml").WithOutputImage
        "myimage").WithOutputTarball "out.tar").WithSBOM true).WithVCS true)
      ["apko", "build", "app.yaml", "myimage:latest", "out.tar"]
      rfl (by decide) (by decide)).2⟩⟩

/-- C5: on a fully-configured builder, a second `BuildCommand` call on
the builder left by the first call returns the same result pair, so
the argument sequences of both calls agree, both errors are nil, and
the tag defaulting performed by the first call is stable. -/
theorem buildCommand_idempotent (b : ApkoBuilder) (h1 : b.configFile ≠ "")
    (h2 : b.outputImage ≠ "") (h3 : b.outputTarball ≠ "") :
    (b.BuildCommand).2.BuildCommand = b.BuildCommand ∧
    ∃ cmd, (b.BuildCommand).1 = Except.ok cmd := by
  have e1 := buildCommand_eq b h1 h2 h3
  have e2 := buildCommand_eq (defaultTag b)
    (by rw [defaultTag_configFile]; exact h1)
    (by rw [defaultTag_outputImage]; exact h2)
    (by rw [defaultTag_outputTarball]; exact h3)
  rw [defaultTag_idem, defaultTag_extraArgs] at e2
  constructor
  · rw [e1]
    exact e2
  · exact ⟨_, congrArg Prod.fst e1⟩

/-- Witness for C5 on a concrete fully-configured builder. -/
theorem buildCommand_idempotent_witness :
    ((((NewApkoBuilder.WithConfigFile "app.yaml").WithOutputImage
        "myimage").WithOutputTarball "out.tar").configFile ≠ "" ∧
     (((NewApkoBuilder.WithConfigFile "app.yaml").WithOutputImage
        "myimage").WithOutputTarball "out.tar").outputImage ≠ "" ∧
     (((NewApkoBuilder.WithConfigFile "app.yaml").WithOutputImage
        "myimage").WithOutputTarball "out.tar").outputTarball ≠ "") ∧
    (((((NewApkoBuilder.WithConfigFile "app.yaml").WithOutputImage
        "myimage").WithOutputTarball "out.tar").BuildCommand).2.BuildCommand =
      (((NewApkoBuilder.WithConfigFile "app.yaml").WithOutputImage
        "myimage").WithOutputTarball "out.tar").BuildCommand ∧
     ∃ cmd, ((((NewApkoBuilder.WithConfigFile "app.yaml").WithOutputImage
        "myimage").WithOutputTarball "out.tar").BuildCommand).1 = Except.ok cmd) :=
  ⟨⟨by decide, by decide, by decide⟩,
    buildCommand_idempotent _ (by decide) (by decide) (by decide)⟩

/-- C6: every successful `BuildCommand` output is exactly the base
tokens `"apko" "build"`, then the flag region in the fixed declared
order (cache dir, keyring paths in insertion order, architecture,
build context, SBOM/VCS toggles), then the positional region (config
file, image reference, output tarball), then the extra arguments
verbatim — so all flag tokens precede all positional tokens, which
precede all extra arguments. -/
theorem buildCommand_token_ordering (b : ApkoBuilder) (cmd : List String)
    (h : b.BuildCommand.1 = Except.ok cmd) :
    cmd = ["apko", "build"] ++ flagTokens (defaultTag b) ++
      positionalArgs (defaultTag b) ++ b.extraArgs := by
  by_cases h1 : b.configFile = ""
  · unfold ApkoBuilder.BuildCommand at h
    rw [if_pos h1] at h
    cases h
  by_cases h2 : b.outputImage = ""
  · unfold ApkoBuilder.BuildCommand at h
    rw [if_neg h1, if_pos h2] at h
    cases h
  by_cases h3 : b.outputTarball = ""
  · unfold ApkoBuilder.BuildCommand at h
    rw [if_neg h1, if_neg h2, if_pos h3] at h
    cases h
  rw [buildCommand_eq b h1 h2 h3] at h
  exact (Except.ok.inj h).symm

/-- Witness for C6 on a concrete successful call. -/
theorem buildCommand_token_ordering_witness :
    (((NewApkoBuilder.WithConfigFile "app.yaml").WithOutputImage
        "myimage").WithOutputTarball "out.tar").BuildCommand.1 =
      Except.ok ["apko", "build", "--sbom=false", "--vcs=false",
        "app.yaml", "myimage:latest", "out.tar"] ∧
    ["apko", "build", "--sbom=false", "--vcs=false",
        "app.yaml", "myimage:latest", "out.tar"] =
      ["apko", "build"] ++
        flagTokens (defaultTag (((NewApkoBuilder.WithConfigFile
          "app.yaml").WithOutputImage "myimage").WithOutputTarball "out.tar")) ++
        positionalArgs (defaultTag (((NewApkoBuilder.WithConfigFile
          "app.yaml").WithOutputImage "myimage").WithOutputTarball "out.tar")) ++
        (((NewApkoBuilder.WithConfigFile "app.yaml").WithOutputImage
          "myimage").WithOutputTarball "out.tar").extraArgs :=
  ⟨rfl, buildCommand_token_ordering _ _ rfl⟩

/-- C7: the preset registry returns the fixed Wolfi and Alpine URL/path
pairs with a nil error, and an `unsupported preset` error for every
other string — exact, case-sensitive matching, no normalization. -/
theorem getKeyringInfoForPreset_spec :
    GetKeyringInfoForPreset "wolfi" =
      Except.ok { KeyURL := "https://packages.wolfi.dev/os/wolfi-signing.rsa.pub",
                  KeyPath := "/etc/apk/keys/wolfi-signing.rsa.pub" } ∧
    GetKeyringInfoForPreset "alpine" =
      Except.ok
        { KeyURL := "https://alpinelinux.org/keys/alpine-devel@lists.alpinelinux.org-4a6a0840.rsa.pub"
          KeyPath := "/etc/apk/keys/alpine-devel@lists.alpinelinux.org-4a6a0840.rsa.pub" } ∧
    ∀ s : String, s ≠ "wolfi" → s ≠ "alpine" →
      GetKeyringInfoForPreset s = Except.error ("unsupported preset: " ++ s) := by
  refine ⟨rfl, rfl, fun s hw ha => ?_⟩
  unfold GetKeyringInfoForPreset
  rw [if_neg ha, if_neg hw]

/-- Witness for C7: the case-variant `"Wolfi"` is rejected. -/
theorem getKeyringInfoForPreset_spec_witness :
    ("Wolfi" : String) ≠ "wolfi" ∧ ("Wolfi" : String) ≠ "alpine" ∧
    GetKeyringInfoForPreset "Wolfi" = Except.error ("unsupported preset: " ++ "Wolfi") :=
  ⟨by decide, by decide, getKeyringInfoForPreset_spec.2.2 "Wolfi" (by decide) (by decide)⟩

/-- C8: for every prefix, config-file validation fails with
`config file is required` on an empty file, `config file must have an
extension` when the file has no extension, `config file must have a
.yaml or .yml extension` on any other extension, and otherwise returns
the file unchanged — the prefix is never joined into the result. -/
theorem getApkoConfigOrPreset_spec (p f : String) :
    (f = "" → GetApkoConfigOrPreset p f = Except.error "config file is required") ∧
    (f ≠ "" → filepathExt f = "" →
      GetApkoConfigOrPreset p f = Except.error "config file must have an extension") ∧
    (filepathExt f ≠ "" → filepathExt f ≠ ".yaml" → filepathExt f ≠ ".yml" →
      GetApkoConfigOrPreset p f =
        Except.error "config file must have a .yaml or .yml extension") ∧
    ((filepathExt f = ".yaml" ∨ filepathExt f = ".yml") →
      GetApkoConfigOrPreset p f = Except.ok f) := by
  have hemp : f = "" → filepathExt f = "" := by
    intro h; subst h; rfl
  refine ⟨fun h => ?_, fun h he => ?_, fun he hy hm => ?_, fun h => ?_⟩ <;>
    unfold GetApkoConfigOrPreset
  · rw [if_pos h]
  · rw [if_neg h, if_pos he]
  · have hf : f ≠ "" := fun h => he (hemp h)
    rw [if_neg hf, if_neg he, if_pos ⟨hy, hm⟩]
  · have hf : f ≠ "" := by
      intro hf
      have hx := hemp hf
      rcases h with h | h <;> rw [h] at hx <;> exact absurd hx (by decide)
    have he : filepathExt f ≠ "" := by
      rcases h with h | h <;> rw [h] <;> decide
    have hn : ¬(filepathExt f ≠ ".yaml" ∧ filepathExt f ≠ ".yml") := by
      rcases h with h | h
      · exact fun hc => hc.1 h
      · exact fun hc => hc.2 h
    rw [if_neg hf, if_neg he, if_neg hn]

/-- Witness for C8: the three concrete scenarios of the spec. -/
theorem getApkoConfigOrPreset_spec_witness :
    GetApkoConfigOrPreset "" "cfg" = Except.error "config file must have an extension" ∧
    GetApkoConfigOrPreset "" "cfg.json" =
      Except.error "config file must have a .yaml or .yml extension" ∧
    GetApkoConfigOrPreset "" "cfg.yaml" = Except.ok "cfg.yaml" :=
  ⟨(getApkoConfigOrPreset_spec "" "cfg").2.1 (by decide) (by decide),
   (getApkoConfigOrPreset_spec "" "cfg.json").2.2.1 (by decide) (by decide) (by decide),
   (getApkoConfigOrPreset_spec "" "cfg.yaml").2.2.2 (Or.inl (by decide))⟩

/-- C9: `BuildCommand` either leaves the builder exactly as it was, or
— only when the tag was empty — changes nothing but the tag, setting
it to `"latest"`; no other field is ever mutated, on success or
failure. -/
theorem buildCommand_mutates_only_tag (b : ApkoBuilder) :
    (b.BuildCommand).2 = b ∨
    (b.tag = "" ∧ (b.BuildCommand).2 = { b with tag := "latest" }) := by
  by_cases h1 : b.configFile = "" <;> by_cases h2 : b.outputImage = "" <;>
    by_cases h3 : b.outputTarball = "" <;> by_cases ht : b.tag = "" <;>
    simp [ApkoBuilder.BuildCommand, h1, h2, h3, ht]

/-- C10: the result of `BuildCommand` depends only on configFile,
outputImage, tag, outputTarball, cacheDir, keyringPaths, buildArch,
buildContext, sbom, vcs and extraArgs: two builders agreeing on these
eleven fields receive identical results (sequence and error), whatever
their other fields hold — in particular `WithWolfiKeyring` and
`WithAlpineKeyring`, which only set the unused booleans, never affect
the emitted command. -/
theorem buildCommand_depends_only_on_used_fields (b1 b2 : ApkoBuilder)
    (hcf : b1.configFile = b2.configFile) (hoi : b1.outputImage = b2.outputImage)
    (htg : b1.tag = b2.tag) (hot : b1.outputTarball = b2.outputTarball)
    (hcd : b1.cacheDir = b2.cacheDir) (hkp : b1.keyringPaths = b2.keyringPaths)
    (hba : b1.buildArch = b2.buildArch) (hbc : b1.buildContext = b2.buildContext)
    (hsb : b1.sbom = b2.sbom) (hvc : b1.vcs = b2.vcs)
    (hea : b1.extraArgs = b2.extraArgs) :
    (b1.BuildCommand).1 = (b2.BuildCommand).1 := by
  by_cases h1 : b2.configFile = "" <;> by_cases h2 : b2.outputImage = "" <;>
    by_cases h3 : b2.outputTarball = "" <;> by_cases ht : b2.tag = "" <;>
    simp [ApkoBuilder.BuildCommand, hcf, hoi, htg, hot, hcd, hkp, hba, hbc,
      hsb, hvc, hea, h1, h2, h3, ht]

/-- Witness for C10: toggling the Wolfi/Alpine keyring booleans and
debug mode does not change the emitted command. -/
theorem buildCommand_depends_only_on_used_fields_witness :
    ((((NewApkoBuilder.WithConfigFile "app.yaml").WithOutputImage
      "myimage").WithOutputTarball "out.tar").BuildCommand).1 =
    ((((((NewApkoBuilder.WithConfigFile "app.yaml").WithOutputImage
      "myimage").WithOutputTarball
      "out.tar").WithWolfiKeyring).WithAlpineKeyring).WithDebug.BuildCommand).1 :=
  buildCommand_depends_only_on_used_fields _ _
    rfl rfl rfl rfl rfl rfl rfl rfl rfl rfl rfl

end Apkox
